import Mathlib

/-!
Verification development for the NutriFinder API backend
(`src/main.py`, `src/schemas.py`).

The repository is a small CRUD service over a single MongoDB collection
`fooditem`.  We shallowly embed:

  * the stored document shape (`FoodDoc`, numbers as exact rationals),
  * the Pydantic request model `FoodItemCreate` from `main.py` and its
    validation, plus the `FoodItem` schema from `schemas.py` with its
    declared numeric bounds,
  * the MongoDB filters built by `list_foods` — `$regex` with
    `$options: "i"` is embedded by a small case-insensitive regex
    fragment (literal characters, `.`, and the anchors `^`/`$` used by
    the code), which is exactly the part of PCRE the handlers exercise,
  * the route handlers `list_foods`, `create_food`, `get_food`,
    `seed_foods`, `test_database` as explicit state-passing functions
    over an `Option DB` connection handle (`db is None` ⇔ `none`),
  * the storage gateway (`database.py` is not part of the sources;
    `create_document` / `get_documents` are modelled from the spec).
-/

deriving instance DecidableEq for Except

/-- An embedded nutrient record (`schemas.Nutrient` shape; in
`main.FoodItemCreate` the entries are plain dicts of this shape).
Numeric amounts are modelled as exact rationals. -/
structure Nutrient where
  name : String
  unit : String
  amount : ℚ
deriving DecidableEq, Repr

/-- The shape of a stored `fooditem` document (without its `_id`):
the fields of `schemas.FoodItem` / `main.FoodItemCreate`. -/
structure FoodDoc where
  name : String
  aliases : List String := []
  category : Option String := none
  serving_size : Option String := none
  calories : Option ℚ := none
  macros : List (String × ℚ) := []
  micronutrients : List Nutrient := []
  glycemic_index : Option ℚ := none
  best_time_to_eat : Option String := none
  benefits : List String := []
  conditions_helped : List String := []
  cautions : List String := []
  notes : Option String := none
deriving DecidableEq, Repr

/-- A stored document: a storage-assigned identifier (`_id`, rendered as
its 24-hex-digit string form) together with the document body. -/
structure StoredDoc where
  oid : String
  body : FoodDoc
deriving DecidableEq, Repr

/-- The `fooditem` collection state: documents in insertion
(storage-native) order plus a counter from which fresh identifiers are
drawn. -/
structure DB where
  docs : List StoredDoc
  counter : Nat
deriving DecidableEq, Repr

/-! ### ObjectId strings -/

/-- `bson.ObjectId(s)` accepts exactly 24-character hex strings. -/
def isHexDigitChar (c : Char) : Bool :=
  (('0' ≤ c && c ≤ '9') || ('a' ≤ c && c ≤ 'f') || ('A' ≤ c && c ≤ 'F'))

/-- Syntactic validity of a wire identifier, as checked by
`ObjectId(food_id)` in `get_food` (`main.py:95`). -/
def isValidObjectId (s : String) : Bool :=
  s.length == 24 && s.data.all isHexDigitChar

/-- The `i`-th hex digit character (lowercase), `i < 16`. -/
def hexDigit (n : Nat) : Char :=
  if n < 10 then Char.ofNat (48 + n) else Char.ofNat (87 + n)

/-- Render a counter value as a 24-hex-digit (lowercase) ObjectId
string: the storage-assigned opaque identifier of this model. -/
def toHex24 (n : Nat) : String :=
  String.mk ((List.range 24).map (fun i => hexDigit (n / 16 ^ (23 - i) % 16)))

/-- Hex strings compare as ObjectIds case-insensitively (both sides are
parsed to bytes); we canonicalise to lowercase. -/
def canonOid (s : String) : String :=
  String.mk (s.data.map Char.toLower)

/-! ### The `$regex` fragment used by `list_foods`

`list_foods` issues `{"$regex": pat, "$options": "i"}` conditions where
`pat` is either the raw user string `q` or `f"^{category}$"`.  We embed
the PCRE fragment these patterns live in: a leading `^` anchors at the
start, a trailing `$` anchors at the end, `.` matches any character, and
every other character matches itself; the `i` option makes literal
characters match case-insensitively.  A pattern matches a string iff it
matches some substring (unanchored search). -/

/-- One regex token: a literal character or the `.` wildcard. -/
inductive Tok where
  | lit (c : Char)
  | dot
deriving DecidableEq, Repr

/-- Token-versus-character match, with the `i` (case-insensitive)
option that both call sites pass. -/
def tokMatch : Tok → Char → Bool
  | .lit a, c => a.toLower == c.toLower
  | .dot, _ => true

/-- A parsed pattern: optional start/end anchors around a token list. -/
structure Regex where
  anchStart : Bool
  anchEnd : Bool
  toks : List Tok
deriving DecidableEq, Repr

/-- Parse one non-anchor pattern character. -/
def parseTok (c : Char) : Tok :=
  if c == '.' then Tok.dot else Tok.lit c

/-- Strip a trailing `$` anchor. -/
def stripDollar : List Char → Bool × List Char
  | [] => (false, [])
  | [c] => if c == '$' then (true, []) else (false, [c])
  | c :: rest =>
    let r := stripDollar rest
    (r.1, c :: r.2)

/-- Parse a pattern string: leading `^`, trailing `$`, then tokens. -/
def parsePattern (s : List Char) : Regex :=
  let p : Bool × List Char :=
    match s with
    | c :: r => if c == '^' then (true, r) else (false, s)
    | [] => (false, [])
  let q := stripDollar p.2
  ⟨p.1, q.1, q.2.map parseTok⟩

/-- Do the tokens match a prefix of `s`? -/
def matchPref : List Tok → List Char → Bool
  | [], _ => true
  | _ :: _, [] => false
  | t :: ts, c :: cs => tokMatch t c && matchPref ts cs

/-- Do the tokens match `s` exactly (consuming all of it)? -/
def matchExact : List Tok → List Char → Bool
  | [], [] => true
  | [], _ :: _ => false
  | _ :: _, [] => false
  | t :: ts, c :: cs => tokMatch t c && matchExact ts cs

/-- Does `p` hold of some suffix of `s`? -/
def anySuffix (p : List Char → Bool) : List Char → Bool
  | [] => p []
  | c :: cs => p (c :: cs) || anySuffix p cs

/-- Unanchored-search semantics of a parsed pattern. -/
def regexMatch (r : Regex) (s : List Char) : Bool :=
  match r.anchStart, r.anchEnd with
  | true, true => matchExact r.toks s
  | true, false => matchPref r.toks s
  | false, true => anySuffix (fun t => matchExact r.toks t) s
  | false, false => anySuffix (fun t => matchPref r.toks t) s

/-- `$regex` with `$options: "i"` on a string field. -/
def regexMatchStr (pat s : String) : Bool :=
  regexMatch (parsePattern pat.data) s.data

/-! ### The filter built by `list_foods` and the storage gateway -/

/-- The filter document `list_foods` hands to the gateway: an optional
`$or` of `{name: {$regex: q, $options: i}}` and
`{aliases: {$regex: q, $options: i}}`, and an optional
`{category: {$regex: "^" ++ category ++ "$", $options: i}}`. -/
structure FoodFilter where
  qOr : Option String := none
  catRegex : Option String := none
deriving DecidableEq, Repr

/-- MongoDB match semantics of such a filter against one document: the
two conditions are ANDed; the `aliases` regex condition matches an array
field iff some element matches; a regex condition on an absent field
does not match. -/
def filterMatches (f : FoodFilter) (d : FoodDoc) : Bool :=
  (match f.qOr with
   | none => true
   | some pat => regexMatchStr pat d.name || d.aliases.any (fun a => regexMatchStr pat a)) &&
  (match f.catRegex with
   | none => true
   | some pat =>
     match d.category with
     | none => false
     | some c => regexMatchStr pat c)

/-- Filter construction from `list_foods` (`main.py:64`–`71`): Python
truthiness means an absent *or empty* `q`/`category` adds no
condition. -/
def buildListFilter (q category : Option String) : FoodFilter :=
  { qOr :=
      match q with
      | some s => if s.isEmpty then none else some s
      | none => none,
    catRegex :=
      match category with
      | some s => if s.isEmpty then none else some ("^" ++ s ++ "$")
      | none => none }

/-- Modelled from the spec: `database.py` is not among the sources; its
`find` contract (§4.1) "returns up to `limit` documents matching
`filter`, in storage-native order". -/
def get_documents (dbv : DB) (f : FoodFilter) (limit : Nat) : List StoredDoc :=
  (dbv.docs.filter (fun d => filterMatches f d.body)).take limit

/-- Modelled from the spec: `database.py`'s `insert` contract (§4.1)
"persists `document` into the named collection, returns a newly
assigned unique identifier". -/
def create_document (dbv : DB) (doc : FoodDoc) : String × DB :=
  let oid := toHex24 dbv.counter
  (oid, ⟨dbv.docs ++ [⟨oid, doc⟩], dbv.counter + 1⟩)

/-! ### Wire shapes and errors -/

/-- A document as returned on the wire: the internal `_id` field has
been removed and replaced by the string field `id` (`main.py:75`–`77`,
`main.py:102`). -/
structure WireDoc where
  id : String
  body : FoodDoc
deriving DecidableEq, Repr

/-- `HTTPException(status_code, detail)`. -/
structure HErr where
  status : Nat
  detail : String
deriving DecidableEq, Repr

/-- The fixed `StorageUnavailable` response every storage-touching
handler raises when `db is None`. -/
def storageErr : HErr := ⟨500, "Database not configured"⟩

/-- Response envelope of `GET /api/foods`. -/
structure ListResponse where
  items : List WireDoc
deriving DecidableEq, Repr

/-- The list handler `list_foods` (`main.py:59`–`78`). -/
def list_foods (db : Option DB) (q category : Option String) (limit : Nat) :
    Except HErr ListResponse :=
  match db with
  | none => .error storageErr
  | some dbv =>
    let docs := get_documents dbv (buildListFilter q category) limit
    .ok ⟨docs.map (fun d => ⟨d.oid, d.body⟩)⟩

/-! ### Request validation (`FoodItemCreate` vs `schemas.FoodItem`) -/

/-- The request model `main.FoodItemCreate` (`main.py:21`–`34`):
`name` required, everything else optional with the listed defaults, and
— unlike `schemas.FoodItem` — **no** numeric bounds (`calories` and
`glycemic_index` are plain optional floats, `micronutrients` a list of
unvalidated dicts). -/
structure FoodItemCreate where
  name : String
  aliases : List String := []
  category : Option String := none
  serving_size : Option String := none
  calories : Option ℚ := none
  macros : List (String × ℚ) := []
  micronutrients : List Nutrient := []
  glycemic_index : Option ℚ := none
  best_time_to_eat : Option String := none
  benefits : List String := []
  conditions_helped : List String := []
  cautions : List String := []
  notes : Option String := none
deriving DecidableEq, Repr

/-- A well-typed create payload: which fields the request body
supplies.  (Type errors are outside this embedding; range errors — the
interesting case — are representable since `calories`,
`glycemic_index` and nutrient amounts are arbitrary rationals.) -/
structure RawPayload where
  name : Option String := none
  aliases : Option (List String) := none
  category : Option String := none
  serving_size : Option String := none
  calories : Option ℚ := none
  macros : Option (List (String × ℚ)) := none
  micronutrients : Option (List Nutrient) := none
  glycemic_index : Option ℚ := none
  best_time_to_eat : Option String := none
  benefits : Option (List String) := none
  conditions_helped : Option (List String) := none
  cautions : Option (List String) := none
  notes : Option String := none
deriving DecidableEq, Repr

/-- One entry of a 422 validation-error body. -/
structure FieldError where
  loc : String
  msg : String
deriving DecidableEq, Repr

/-- Pydantic validation of a payload against `main.FoodItemCreate`:
`name` must be present; every other field falls back to its default.
No range checks exist on this model. -/
def validate_FoodItemCreate (p : RawPayload) : Except (List FieldError) FoodItemCreate :=
  match p.name with
  | none => .error [⟨"name", "Field required"⟩]
  | some nm =>
    .ok
      { name := nm
        aliases := p.aliases.getD []
        category := p.category
        serving_size := p.serving_size
        calories := p.calories
        macros := p.macros.getD []
        micronutrients := p.micronutrients.getD []
        glycemic_index := p.glycemic_index
        best_time_to_eat := p.best_time_to_eat
        benefits := p.benefits.getD []
        conditions_helped := p.conditions_helped.getD []
        cautions := p.cautions.getD []
        notes := p.notes }

/-- Pydantic validation of the same payload against `schemas.FoodItem`
(`schemas.py:47`–`67`), which declares `calories ≥ 0`,
`0 ≤ glycemic_index ≤ 100` and `amount ≥ 0` on each nutrient.  The
create route does **not** use this model; it is embedded to compare. -/
def validate_FoodItem (p : RawPayload) : Except (List FieldError) FoodDoc :=
  let nameErrs : List FieldError :=
    match p.name with
    | none => [⟨"name", "Field required"⟩]
    | some _ => []
  let calErrs : List FieldError :=
    match p.calories with
    | some c => if c < 0 then [⟨"calories", "Input should be greater than or equal to 0"⟩] else []
    | none => []
  let giErrs : List FieldError :=
    match p.glycemic_index with
    | some g =>
      (if g < 0 then [⟨"glycemic_index", "Input should be greater than or equal to 0"⟩] else []) ++
        (if 100 < g then [⟨"glycemic_index", "Input should be less than or equal to 100"⟩] else [])
    | none => []
  let nutErrs : List FieldError :=
    ((p.micronutrients.getD []).filter (fun n => n.amount < 0)).map
      (fun _ => ⟨"micronutrients.amount", "Input should be greater than or equal to 0"⟩)
  match nameErrs ++ calErrs ++ giErrs ++ nutErrs, p.name with
  | [], some nm =>
    .ok
      { name := nm
        aliases := p.aliases.getD []
        category := p.category
        serving_size := p.serving_size
        calories := p.calories
        macros := p.macros.getD []
        micronutrients := p.micronutrients.getD []
        glycemic_index := p.glycemic_index
        best_time_to_eat := p.best_time_to_eat
        benefits := p.benefits.getD []
        conditions_helped := p.conditions_helped.getD []
        cautions := p.cautions.getD []
        notes := p.notes }
  | errs, _ => .error errs

/-- `item.model_dump()`: the validated model becomes the stored
document body. -/
def model_dump (i : FoodItemCreate) : FoodDoc :=
  { name := i.name
    aliases := i.aliases
    category := i.category
    serving_size := i.serving_size
    calories := i.calories
    macros := i.macros
    micronutrients := i.micronutrients
    glycemic_index := i.glycemic_index
    best_time_to_eat := i.best_time_to_eat
    benefits := i.benefits
    conditions_helped := i.conditions_helped
    cautions := i.cautions
    notes := i.notes }

/-- Response of `POST /api/foods`. -/
structure CreateResponse where
  id : String
  message : String
deriving DecidableEq, Repr

/-- The create handler `create_food` (`main.py:81`–`87`), taking an
already-validated model (FastAPI rejects the request with a 422 before
the handler runs when `validate_FoodItemCreate` fails). -/
def create_food (db : Option DB) (item : FoodItemCreate) :
    Except HErr CreateResponse × Option DB :=
  match db with
  | none => (.error storageErr, none)
  | some dbv =>
    let r := create_document dbv (model_dump item)
    (.ok ⟨r.1, "Food item created"⟩, some r.2)

/-- The full create operation at the boundary: raw payload in,
validation (422) before any storage access. -/
def create_food_endpoint (db : Option DB) (p : RawPayload) :
    Except (List FieldError) (Except HErr CreateResponse × Option DB) :=
  match validate_FoodItemCreate p with
  | .error es => .error es
  | .ok item => .ok (create_food db item)

/-- The point-lookup handler `get_food` (`main.py:90`–`103`). -/
def get_food (db : Option DB) (food_id : String) : Except HErr WireDoc :=
  match db with
  | none => .error storageErr
  | some dbv =>
    if isValidObjectId food_id then
      match dbv.docs.find? (fun d => d.oid == canonOid food_id) with
      | none => .error ⟨404, "Not found"⟩
      | some d => .ok ⟨d.oid, d.body⟩
    else .error ⟨400, "Invalid ID"⟩

/-! ### Seed (`POST /api/foods/seed`, `main.py:106`–`274`) -/

/-- The ten-entry seed catalog of `seed_foods` (`main.py:112`–`264`),
numbers as exact rationals. -/
def seed_data : List FoodDoc :=
  [ { name := "Apple"
      aliases := ["Malus domestica"]
      category := some "fruit"
      serving_size := some "1 medium (182 g)"
      calories := some 95
      macros := [("protein", 0.5), ("carbs", 25), ("fat", 0.3), ("fiber", 4.4)]
      micronutrients := [⟨"Vitamin C", "mg", 8.4⟩, ⟨"Potassium", "mg", 195⟩]
      glycemic_index := some 36
      best_time_to_eat := some "Morning or as a snack"
      benefits := ["Gut health", "Hydration", "Satiety"]
      conditions_helped := ["Weight management", "Heart health"] },
    { name := "Banana"
      category := some "fruit"
      serving_size := some "1 medium (118 g)"
      calories := some 105
      macros := [("protein", 1.3), ("carbs", 27), ("fat", 0.3), ("fiber", 3.1)]
      micronutrients := [⟨"Potassium", "mg", 422⟩, ⟨"Vitamin B6", "mg", 0.4⟩]
      glycemic_index := some 51
      best_time_to_eat := some "Pre-workout or afternoon"
      benefits := ["Energy", "Electrolyte balance"]
      conditions_helped := ["Muscle cramps", "Digestion"] },
    { name := "Oats"
      category := some "grain"
      serving_size := some "1/2 cup dry (40 g)"
      calories := some 154
      macros := [("protein", 5.3), ("carbs", 27), ("fat", 2.6), ("fiber", 4)]
      micronutrients := [⟨"Manganese", "mg", 1.7⟩, ⟨"Iron", "mg", 1.7⟩]
      glycemic_index := some 55
      best_time_to_eat := some "Morning"
      benefits := ["Cholesterol support", "Satiety"]
      conditions_helped := ["Heart health", "Blood sugar"] },
    { name := "Turmeric"
      category := some "spice"
      serving_size := some "1 tsp (3 g)"
      calories := some 9
      macros := [("protein", 0.3), ("carbs", 2), ("fat", 0.1), ("fiber", 0.7)]
      micronutrients := [⟨"Manganese", "mg", 0.2⟩]
      glycemic_index := some 5
      best_time_to_eat := some "With meals"
      benefits := ["Anti-inflammatory", "Antioxidant"]
      conditions_helped := ["Joint health", "Metabolic health"] },
    { name := "Salmon"
      category := some "protein"
      serving_size := some "100 g cooked"
      calories := some 208
      macros := [("protein", 22), ("carbs", 0), ("fat", 13), ("fiber", 0)]
      micronutrients := [⟨"Vitamin D", "IU", 447⟩, ⟨"Omega-3 (EPA+DHA)", "g", 1.8⟩]
      glycemic_index := some 0
      best_time_to_eat := some "Lunch or dinner"
      benefits := ["Brain health", "Heart health"]
      conditions_helped := ["Inflammation", "Triglycerides"] },
    { name := "Greek Yogurt"
      aliases := ["Yoghurt"]
      category := some "dairy"
      serving_size := some "170 g (6 oz)"
      calories := some 100
      macros := [("protein", 17), ("carbs", 6), ("fat", 0)]
      micronutrients := [⟨"Calcium", "mg", 187⟩, ⟨"Probiotics", "CFU", 0⟩]
      glycemic_index := some 11
      best_time_to_eat := some "Morning or snack"
      benefits := ["Gut health", "Muscle repair"]
      conditions_helped := ["Bone health", "Satiety"] },
    { name := "Spinach"
      category := some "vegetable"
      serving_size := some "100 g raw"
      calories := some 23
      macros := [("protein", 2.9), ("carbs", 3.6), ("fat", 0.4), ("fiber", 2.2)]
      micronutrients := [⟨"Vitamin K", "mcg", 483⟩, ⟨"Folate", "mcg", 194⟩]
      glycemic_index := some 15
      best_time_to_eat := some "Lunch or dinner"
      benefits := ["Micronutrient dense", "Eye health"]
      conditions_helped := ["Anemia", "Blood pressure"] },
    { name := "Sweet Potato"
      category := some "vegetable"
      serving_size := some "1 medium (130 g)"
      calories := some 112
      macros := [("protein", 2), ("carbs", 26), ("fat", 0.1), ("fiber", 3.9)]
      micronutrients := [⟨"Vitamin A", "mcg", 944⟩, ⟨"Potassium", "mg", 438⟩]
      glycemic_index := some 54
      best_time_to_eat := some "Lunch or post-workout"
      benefits := ["Stable energy", "Eye health"]
      conditions_helped := ["Blood sugar", "Immunity"] },
    { name := "Almonds"
      category := some "nut"
      serving_size := some "28 g (23 almonds)"
      calories := some 164
      macros := [("protein", 6), ("carbs", 6), ("fat", 14), ("fiber", 3.5)]
      micronutrients := [⟨"Vitamin E", "mg", 7.3⟩, ⟨"Magnesium", "mg", 76⟩]
      glycemic_index := some 0
      best_time_to_eat := some "Snack or with breakfast"
      benefits := ["Satiety", "Heart health"]
      conditions_helped := ["Cholesterol", "Blood sugar"] },
    { name := "Lentils"
      category := some "legume"
      serving_size := some "1/2 cup cooked (99 g)"
      calories := some 115
      macros := [("protein", 9), ("carbs", 20), ("fat", 0.4), ("fiber", 8)]
      micronutrients := [⟨"Folate", "mcg", 179⟩, ⟨"Iron", "mg", 3.3⟩]
      glycemic_index := some 32
      best_time_to_eat := some "Lunch or dinner"
      benefits := ["Protein", "Gut health"]
      conditions_helped := ["Blood sugar", "Heart health"] } ]

/-- One `update_one({"name": doc["name"]}, {"$setOnInsert": doc},
upsert=True)` step: if a document with this exact `name` exists the
operation is a no-op and `upserted_id` is `None`; otherwise the
document is inserted with a fresh identifier.  The returned Bool is
`upserted_id is not None`. -/
def upsertByName (dbv : DB) (doc : FoodDoc) : DB × Bool :=
  if dbv.docs.any (fun d => d.body.name == doc.name) then (dbv, false)
  else (⟨dbv.docs ++ [⟨toHex24 dbv.counter, doc⟩], dbv.counter + 1⟩, true)

/-- Response of `POST /api/foods/seed`. -/
structure SeedResponse where
  inserted : Nat
  total : Nat
deriving DecidableEq, Repr

/-- The seed handler `seed_foods` (`main.py:106`–`274`): one upsert per
catalog entry, counting upserts, then `count_documents({})`. -/
def seed_foods (db : Option DB) : Except HErr SeedResponse × Option DB :=
  match db with
  | none => (.error storageErr, none)
  | some dbv =>
    let r := seed_data.foldl
      (fun (acc : DB × Nat) doc =>
        let s := upsertByName acc.1 doc
        (s.1, if s.2 then acc.2 + 1 else acc.2))
      (dbv, 0)
    (.ok ⟨r.2, r.1.docs.length⟩, some r.1)

/-! ### Diagnostics (`GET /test`, `main.py:277`–`306`) -/

/-- The two environment variables the diagnostics endpoint inspects;
`none` is an unset variable (`os.getenv` returns `None`). -/
structure DiagEnv where
  database_url : Option String := none
  database_name : Option String := none
deriving DecidableEq, Repr

/-- Python truthiness of an `os.getenv` result. -/
def envTruthy (v : Option String) : Bool :=
  match v with
  | none => false
  | some s => !s.isEmpty

/-- Outcome of `db.list_collection_names()`: a name list, or a raised
exception with message `msg`. -/
inductive ListColsOutcome where
  | ok (names : List String)
  | err (msg : String)
deriving DecidableEq, Repr

/-- The state the diagnostics endpoint observes: environment, the
connection handle, and what the connectivity probe would do. -/
structure DiagState where
  env : DiagEnv
  db : Option DB
  listCols : ListColsOutcome
deriving DecidableEq, Repr

/-- The response dict of `GET /test`. -/
structure DiagResponse where
  backend : String
  database : String
  database_url : Option String
  database_name : Option String
  connection_status : String
  collections : List String
deriving DecidableEq, Repr

/-- Body computation of `test_database` (`main.py:277`–`306`).  The
only statement inside the outer `try` that can raise is
`list_collection_names`, and that is already caught by the inner
`except`, so the outer handler is not reachable in this model; the two
trailing assignments overwrite `database_url` / `database_name` with
presence markers on every path. -/
def test_database_response (st : DiagState) : DiagResponse :=
  let response : DiagResponse :=
    ⟨"✅ Running", "❌ Not Available", none, none, "Not Connected", []⟩
  let response :=
    match st.db with
    | some _ =>
      let r := { response with
        database := "✅ Available"
        database_url := some (if envTruthy st.env.database_url then "✅ Set" else "❌ Not Set")
        database_name := some
          (match st.env.database_name with
           | some s => if s.isEmpty then "❌ Not Set" else s
           | none => "❌ Not Set")
        connection_status := "Connected" }
      match st.listCols with
      | .ok names =>
        { r with collections := names.take 10, database := "✅ Connected & Working" }
      | .err e =>
        { r with database := "⚠️  Connected but Error: " ++ e.take 50 }
    | none => { response with database := "⚠️  Available but not initialized" }
  { response with
    database_url := some (if envTruthy st.env.database_url then "✅ Set" else "❌ Not Set")
    database_name := some (if envTruthy st.env.database_name then "✅ Set" else "❌ Not Set") }

/-- The diagnostics handler: it never raises, so it always produces an
`ok` (HTTP 200) response. -/
def test_database (st : DiagState) : Except HErr DiagResponse :=
  .ok (test_database_response st)

/-! ### Spec-side predicates

These follow the specification's wording ("case-insensitive substring
matched against `name` OR any entry of `aliases`", "exact
case-insensitive match" on `category`) independently of the filter the
code builds; the refinement theorems compare the two. -/

/-- Lowercasing, the reading of "case-insensitive". -/
def lowerL (s : List Char) : List Char :=
  s.map Char.toLower

/-- Does `n` occur as a contiguous sublist of the second argument? -/
def subAux (n : List Char) : List Char → Bool
  | [] => n.isPrefixOf []
  | c :: cs => n.isPrefixOf (c :: cs) || subAux n cs

/-- `needle` occurs in `hay` as a case-insensitive substring. -/
def ciSubstr (needle hay : String) : Bool :=
  subAux (lowerL needle.data) (lowerL hay.data)

/-- Case-insensitive string equality. -/
def ciEqStr (a b : String) : Bool :=
  lowerL a.data == lowerL b.data

/-- Spec wording for the `q` filter: `q` is a case-insensitive
substring of the item's `name` or of some entry of `aliases`. -/
def specQMatch (q : String) (d : FoodDoc) : Bool :=
  ciSubstr q d.name || d.aliases.any (fun a => ciSubstr q a)

/-- Spec wording for the `category` filter: the item's `category`
case-insensitively equals the given category. -/
def specCatMatch (c : String) (d : FoodDoc) : Bool :=
  match d.category with
  | some dc => ciEqStr c dc
  | none => false

/-- Spec wording for the combined listing filter: both conditions,
each applied when its parameter is supplied, ANDed. -/
def specListMatch (q category : Option String) (d : FoodDoc) : Bool :=
  (match q with
   | some s => specQMatch s d
   | none => true) &&
  (match category with
   | some s => specCatMatch s d
   | none => true)

/-- The PCRE metacharacters; every other character only matches
itself. -/
def regexMetachars : List Char :=
  ['.', '^', '$', '*', '+', '?', '(', ')', '[', ']',
   Char.ofNat 123, Char.ofNat 125, '|', '\\']

/-- A character with no special regex meaning. -/
def isLiteralChar (c : Char) : Bool :=
  !(regexMetachars.contains c)

/-- An option that, when supplied, is a nonempty string of characters
without regex meaning. -/
def literalOpt : Option String → Prop
  | none => True
  | some s => s.data ≠ [] ∧ ∀ c ∈ s.data, isLiteralChar c = true

instance : (o : Option String) → Decidable (literalOpt o)
  | none => .isTrue trivial
  | some s =>
    inferInstanceAs (Decidable (s.data ≠ [] ∧ ∀ c ∈ s.data, isLiteralChar c = true))

/-! ### Concrete fixtures used by counterexamples and witnesses -/

/-- A one-document collection whose single item is named `"ab"`. -/
def dbC3 : DB :=
  ⟨[⟨"aaaaaaaaaaaaaaaaaaaaaaaa", { name := "ab" }⟩], 1⟩

/-- A two-document collection exercising name/alias/category search. -/
def dbW : DB :=
  ⟨[⟨"0123456789abcdef01234567", { name := "Sweet Potato", category := some "vegetable" }⟩,
    ⟨"89abcdef0123456789abcdef", { name := "Apple", aliases := ["Malus domestica"],
                                   category := some "fruit" }⟩], 2⟩

/-- A create payload with every out-of-range numeric the claim lists:
negative `calories`, `glycemic_index` above 100, a negative
micronutrient `amount`. -/
def badCreatePayload : RawPayload :=
  { name := some "Candy"
    calories := some (-5)
    glycemic_index := some 150
    micronutrients := some [⟨"X", "mg", -1⟩] }

/-- The validated model `FoodItemCreate` builds from
`badCreatePayload`. -/
def badCreateItem : FoodItemCreate :=
  { name := "Candy"
    calories := some (-5)
    glycemic_index := some 150
    micronutrients := [⟨"X", "mg", -1⟩] }

/-- The collection state after one seed run over an empty collection. -/
def seededDB : DB :=
  (seed_foods (some ⟨[], 0⟩)).2.getD ⟨[], 0⟩

/-! ### Theorems -/

/-- C7: with storage unconfigured (`db is None`), every
storage-touching handler — list, create, get-by-id and seed — returns
the fixed `StorageUnavailable` 500 response immediately. -/
theorem storage_unavailable_fails_fast (q c : Option String) (lim : Nat)
    (item : FoodItemCreate) (fid : String) :
    list_foods none q c lim = .error storageErr ∧
    create_food none item = (.error storageErr, none) ∧
    get_food none fid = .error storageErr ∧
    seed_foods none = (.error storageErr, none) :=
  ⟨rfl, rfl, rfl, rfl⟩

/-- C10: `q = ""` builds the same storage filter as `q` omitted, and
likewise for `category = ""`; hence the list results agree on every
collection state and limit. -/
theorem empty_query_equals_omitted (q c : Option String) (db : Option DB) (lim : Nat) :
    buildListFilter (some "") c = buildListFilter none c ∧
    buildListFilter q (some "") = buildListFilter q none ∧
    list_foods db (some "") c lim = list_foods db none c lim ∧
    list_foods db q (some "") lim = list_foods db q none lim := by
  have h1 : ∀ c : Option String, buildListFilter (some "") c = buildListFilter none c := by
    intro c
    cases c <;> rfl
  have h2 : ∀ q : Option String, buildListFilter q (some "") = buildListFilter q none := by
    intro q
    cases q <;> rfl
  refine ⟨h1 c, h2 q, ?_, ?_⟩ <;> cases db <;> simp [list_foods, h1, h2]

/-- C4: point lookup is a trichotomy: syntactically invalid identifier
↦ 400 `Invalid ID`; valid but absent ↦ 404 `Not found`; valid and
present ↦ the stored document with `_id` renamed to the string field
`id`.  The guards of the three cases are mutually exclusive. -/
theorem get_food_trichotomy (dbv : DB) (s : String) :
    (isValidObjectId s = false ∧ get_food (some dbv) s = .error ⟨400, "Invalid ID"⟩) ∨
    (isValidObjectId s = true ∧
      dbv.docs.find? (fun d => d.oid == canonOid s) = none ∧
      get_food (some dbv) s = .error ⟨404, "Not found"⟩) ∨
    (isValidObjectId s = true ∧
      ∃ d, dbv.docs.find? (fun d => d.oid == canonOid s) = some d ∧
        get_food (some dbv) s = .ok ⟨d.oid, d.body⟩) := by
  by_cases h : isValidObjectId s = true
  · cases hf : dbv.docs.find? (fun d => d.oid == canonOid s) with
    | none => exact Or.inr (Or.inl ⟨h, rfl, by simp [get_food, h, hf]⟩)
    | some d => exact Or.inr (Or.inr ⟨h, d, rfl, by simp [get_food, h, hf]⟩)
  · refine Or.inl ⟨by simpa using h, by simp [get_food, h]⟩

/-- C5: the diagnostics endpoint always yields a success (`ok`)
response, whatever the storage state, and its `collections` list never
exceeds 10 entries. -/
theorem diagnostics_always_ok (st : DiagState) :
    test_database st = .ok (test_database_response st) ∧
    (test_database_response st).collections.length ≤ 10 := by
  refine ⟨rfl, ?_⟩
  rcases st with ⟨env, dbo, lc⟩
  cases dbo <;> cases lc <;>
    simp [test_database_response, List.length_take]

/-- C6: the diagnostics response reports the two environment variables
by presence only: runs differing only in the (non-empty) values of
`DATABASE_URL` / `DATABASE_NAME` produce identical `database_url` and
`database_name` fields. -/
theorem diagnostics_never_echoes_env (u1 u2 n1 n2 : String) (dbo : Option DB)
    (lc : ListColsOutcome)
    (hu1 : u1 ≠ "") (hu2 : u2 ≠ "") (hn1 : n1 ≠ "") (hn2 : n2 ≠ "") :
    (test_database_response ⟨⟨some u1, some n1⟩, dbo, lc⟩).database_url =
      (test_database_response ⟨⟨some u2, some n2⟩, dbo, lc⟩).database_url ∧
    (test_database_response ⟨⟨some u1, some n1⟩, dbo, lc⟩).database_name =
      (test_database_response ⟨⟨some u2, some n2⟩, dbo, lc⟩).database_name := by
  have e1 : u1.isEmpty = false := by
    rw [Bool.eq_false_iff]
    simpa [String.isEmpty_iff] using hu1
  have e2 : u2.isEmpty = false := by
    rw [Bool.eq_false_iff]
    simpa [String.isEmpty_iff] using hu2
  have e3 : n1.isEmpty = false := by
    rw [Bool.eq_false_iff]
    simpa [String.isEmpty_iff] using hn1
  have e4 : n2.isEmpty = false := by
    rw [Bool.eq_false_iff]
    simpa [String.isEmpty_iff] using hn2
  cases dbo <;> cases lc <;>
    simp [test_database_response, envTruthy, e1, e2, e3, e4]

/-- Witness for C6 at two concrete environments with different
non-empty values. -/
theorem diagnostics_never_echoes_env_witness :
    ("mongodb://hostA" : String) ≠ "" ∧ ("mongodb://hostB" : String) ≠ "" ∧
    ("nutridb1" : String) ≠ "" ∧ ("nutridb2" : String) ≠ "" ∧
    ((test_database_response ⟨⟨some "mongodb://hostA", some "nutridb1"⟩, some ⟨[], 0⟩,
        .ok ["fooditem"]⟩).database_url =
      (test_database_response ⟨⟨some "mongodb://hostB", some "nutridb2"⟩, some ⟨[], 0⟩,
        .ok ["fooditem"]⟩).database_url ∧
     (test_database_response ⟨⟨some "mongodb://hostA", some "nutridb1"⟩, some ⟨[], 0⟩,
        .ok ["fooditem"]⟩).database_name =
      (test_database_response ⟨⟨some "mongodb://hostB", some "nutridb2"⟩, some ⟨[], 0⟩,
        .ok ["fooditem"]⟩).database_name) :=
  ⟨by decide, by decide, by decide, by decide,
    diagnostics_never_echoes_env "mongodb://hostA" "mongodb://hostB" "nutridb1" "nutridb2"
      (some ⟨[], 0⟩) (.ok ["fooditem"]) (by decide) (by decide) (by decide) (by decide)⟩

/-- C8: with no filters, each stored document comes back as a wire
document whose `id` is the string form of its `_id` (the internal
field is gone structurally), wrapped in the `items` envelope; with
`limit` at least the collection size, all of them come back. -/
theorem list_foods_unfiltered_returns_all (dbv : DB) (lim : Nat)
    (h : dbv.docs.length ≤ lim) :
    list_foods (some dbv) none none lim =
      .ok ⟨dbv.docs.map (fun d => ⟨d.oid, d.body⟩)⟩ := by
  simp [list_foods, get_documents, buildListFilter, filterMatches,
    List.filter_true, List.take_of_length_le h]

/-- Witness for C8 on a concrete two-document collection. -/
theorem list_foods_unfiltered_returns_all_witness :
    dbW.docs.length ≤ 50 ∧
    list_foods (some dbW) none none 50 = .ok ⟨dbW.docs.map (fun d => ⟨d.oid, d.body⟩)⟩ :=
  ⟨by decide, list_foods_unfiltered_returns_all dbW 50 (by decide)⟩

/-- C2: from an empty collection, the first seed run inserts exactly
the 10 catalog documents and reports `inserted = 10`, `total = 10`; a
second run inserts nothing and reports the same total, leaving the
collection unchanged. -/
theorem seed_twice_idempotent :
    seed_foods (some ⟨[], 0⟩) = (.ok ⟨10, 10⟩, some seededDB) ∧
    seed_foods (some seededDB) = (.ok ⟨0, 10⟩, some seededDB) :=
  ⟨rfl, rfl⟩

/-- C1 (code bug): the create route validates against
`main.FoodItemCreate`, which carries none of the numeric bounds that
`schemas.FoodItem` declares; a payload with negative `calories`,
`glycemic_index = 150` and a negative micronutrient `amount` passes
validation and is persisted, while validation against
`schemas.FoodItem` would return the per-field 422 errors the spec
describes. -/
theorem create_accepts_out_of_range_numerics :
    validate_FoodItemCreate badCreatePayload = .ok badCreateItem ∧
    create_food_endpoint (some ⟨[], 0⟩) badCreatePayload =
      .ok (.ok ⟨toHex24 0, "Food item created"⟩,
        some ⟨[⟨toHex24 0, model_dump badCreateItem⟩], 1⟩) ∧
    validate_FoodItem badCreatePayload =
      .error [⟨"calories", "Input should be greater than or equal to 0"⟩,
              ⟨"glycemic_index", "Input should be less than or equal to 100"⟩,
              ⟨"micronutrients.amount", "Input should be greater than or equal to 0"⟩] := by
  refine ⟨?_, ?_, ?_⟩ <;> decide

/-! ### Regex-fragment lemmas: literal patterns are substring tests -/

/-- A literal character is none of the three metacharacters the parser
treats specially. -/
theorem isLiteralChar_ne (c : Char) (h : isLiteralChar c = true) :
    c ≠ '.' ∧ c ≠ '^' ∧ c ≠ '$' := by
  simp [isLiteralChar, regexMetachars] at h
  exact ⟨h.1, h.2.1, h.2.2.1⟩

/-- `stripDollar` is the identity on strings without `$`. -/
theorem stripDollar_no_dollar (l : List Char) (h : ∀ c ∈ l, c ≠ '$') :
    stripDollar l = (false, l) := by
  induction l with
  | nil => rfl
  | cons c rest ih =>
    cases rest with
    | nil =>
      have hc : (c == '$') = false := beq_eq_false_iff_ne.mpr (h c (by simp))
      simp [stripDollar, hc]
    | cons d r =>
      have ih2 := ih (fun x hx => h x (List.mem_cons_of_mem _ hx))
      simp [stripDollar, ih2]

/-- `stripDollar` removes a trailing `$`. -/
theorem stripDollar_append_dollar (l : List Char) :
    stripDollar (l ++ ['$']) = (true, l) := by
  induction l with
  | nil => rfl
  | cons c rest ih =>
    cases rest with
    | nil => rfl
    | cons d r => simpa [stripDollar] using ih

/-- A nonempty all-literal pattern parses to unanchored literal
tokens. -/
theorem parsePattern_literal (c : Char) (cs : List Char)
    (h : ∀ x ∈ c :: cs, isLiteralChar x = true) :
    parsePattern (c :: cs) = ⟨false, false, (c :: cs).map Tok.lit⟩ := by
  have hcaret : (c == '^') = false :=
    beq_eq_false_iff_ne.mpr (isLiteralChar_ne c (h c (by simp))).2.1
  have hd : stripDollar (c :: cs) = (false, c :: cs) :=
    stripDollar_no_dollar _ (fun x hx => (isLiteralChar_ne x (h x hx)).2.2)
  have hmap : (c :: cs).map parseTok = (c :: cs).map Tok.lit :=
    List.map_congr_left (fun x hx => by
      simp [parseTok, beq_eq_false_iff_ne.mpr (isLiteralChar_ne x (h x hx)).1])
  simp [parsePattern, hcaret, hd, hmap]

/-- The pattern `^l$` over an all-literal `l` parses to doubly anchored
literal tokens. -/
theorem parsePattern_anchored (l : List Char)
    (h : ∀ x ∈ l, isLiteralChar x = true) :
    parsePattern ('^' :: (l ++ ['$'])) = ⟨true, true, l.map Tok.lit⟩ := by
  have hmap : l.map parseTok = l.map Tok.lit :=
    List.map_congr_left (fun x hx => by
      simp [parseTok, beq_eq_false_iff_ne.mpr (isLiteralChar_ne x (h x hx)).1])
  simp [parsePattern, stripDollar_append_dollar, hmap]

/-- Matching literal tokens on a prefix is case-insensitive prefix
comparison. -/
theorem matchPref_lits (l : List Char) :
    ∀ s, matchPref (l.map Tok.lit) s = (lowerL l).isPrefixOf (lowerL s) := by
  induction l with
  | nil => intro s; simp [matchPref, lowerL, List.isPrefixOf]
  | cons a as ih =>
    intro s
    cases s with
    | nil => simp [matchPref, lowerL, List.isPrefixOf]
    | cons b bs => simp [matchPref, tokMatch, lowerL, List.isPrefixOf, ih]

/-- Matching literal tokens exactly is case-insensitive equality. -/
theorem matchExact_lits (l : List Char) :
    ∀ s, (matchExact (l.map Tok.lit) s = true ↔ lowerL l = lowerL s) := by
  induction l with
  | nil =>
    intro s
    cases s <;> simp [matchExact, lowerL]
  | cons a as ih =>
    intro s
    cases s with
    | nil => simp [matchExact, lowerL]
    | cons b bs => simp [matchExact, tokMatch, lowerL, ih]

/-- Unanchored search with literal tokens is the case-insensitive
substring test. -/
theorem anySuffix_pref (n : List Char) :
    ∀ s, anySuffix (fun t => matchPref (n.map Tok.lit) t) s = subAux (lowerL n) (lowerL s) := by
  intro s
  induction s with
  | nil => simp [anySuffix, subAux, matchPref_lits, lowerL]
  | cons c cs ih =>
    show (matchPref (n.map Tok.lit) (c :: cs) ||
        anySuffix (fun t => matchPref (n.map Tok.lit) t) cs) = _
    rw [ih, matchPref_lits]
    simp [subAux, lowerL]

/-- On a nonempty pattern of non-metacharacters, the `$regex`/`i`
condition is exactly case-insensitive substring containment. -/
theorem regexMatchStr_literal (q s : String) (hne : q.data ≠ [])
    (h : ∀ x ∈ q.data, isLiteralChar x = true) :
    regexMatchStr q s = ciSubstr q s := by
  rw [regexMatchStr, ciSubstr]
  cases hqd : q.data with
  | nil => exact absurd hqd hne
  | cons c cs =>
    rw [parsePattern_literal c cs (hqd ▸ h)]
    simpa [regexMatch] using anySuffix_pref (c :: cs) s.data

/-- On `^category$` with a category of non-metacharacters, the
`$regex`/`i` condition is exactly case-insensitive equality. -/
theorem regexMatchStr_anchored_literal (c s : String)
    (h : ∀ x ∈ c.data, isLiteralChar x = true) :
    regexMatchStr ("^" ++ c ++ "$") s = ciEqStr c s := by
  have hdata : ("^" ++ c ++ "$").data = '^' :: (c.data ++ ['$']) := by
    simp [String.data_append]
  rw [regexMatchStr, hdata, parsePattern_anchored c.data h, Bool.eq_iff_iff]
  simp [regexMatch, matchExact_lits, ciEqStr]

/-- Nonempty data means `isEmpty` is false. -/
theorem isEmpty_false_of_data_ne (s : String) (h : s.data ≠ []) :
    s.isEmpty = false := by
  rw [Bool.eq_false_iff]
  intro hx
  exact h (by rw [(String.isEmpty_iff s).mp hx])

/-- For supplied values that are nonempty and metacharacter-free, the
filter `list_foods` builds matches a document exactly when the spec's
predicate (case-insensitive substring on `name`/`aliases`, ANDed with
case-insensitive category equality) does. -/
theorem filterMatches_literal (q category : Option String) (d : FoodDoc)
    (hq : literalOpt q) (hc : literalOpt category) :
    filterMatches (buildListFilter q category) d = specListMatch q category d := by
  rcases q with _ | s <;> rcases category with _ | c
  · rfl
  · obtain ⟨hnec, hlitc⟩ := hc
    have hce : c.isEmpty = false := isEmpty_false_of_data_ne c hnec
    have k2 : ∀ t, regexMatchStr ("^" ++ c ++ "$") t = ciEqStr c t :=
      fun t => regexMatchStr_anchored_literal c t hlitc
    cases hdc : d.category <;>
      simp [buildListFilter, filterMatches, specListMatch, specCatMatch, hce, hdc, k2]
  · obtain ⟨hne, hlit⟩ := hq
    have hse : s.isEmpty = false := isEmpty_false_of_data_ne s hne
    have k1 : ∀ t, regexMatchStr s t = ciSubstr s t :=
      fun t => regexMatchStr_literal s t hne hlit
    simp [buildListFilter, filterMatches, specListMatch, specQMatch, hse, k1]
  · obtain ⟨hne, hlit⟩ := hq
    obtain ⟨hnec, hlitc⟩ := hc
    have hse : s.isEmpty = false := isEmpty_false_of_data_ne s hne
    have hce : c.isEmpty = false := isEmpty_false_of_data_ne c hnec
    have k1 : ∀ t, regexMatchStr s t = ciSubstr s t :=
      fun t => regexMatchStr_literal s t hne hlit
    have k2 : ∀ t, regexMatchStr ("^" ++ c ++ "$") t = ciEqStr c t :=
      fun t => regexMatchStr_anchored_literal c t hlitc
    cases hdc : d.category <;>
      simp [buildListFilter, filterMatches, specListMatch, specQMatch, specCatMatch,
        hse, hce, hdc, k1, k2]

/-- C3 (counterexample): the claim fails as stated for `q` containing a
regex metacharacter.  With one stored item named `"ab"` and `q = "."`,
the handler returns the item (the unescaped `.` matches any character),
although `"."` is not a case-insensitive substring of `"ab"` or of any
alias, so the spec's described result set is empty. -/
theorem listing_regex_metachar_counterexample :
    list_foods (some dbC3) (some ".") none 50 =
      .ok ⟨[⟨"aaaaaaaaaaaaaaaaaaaaaaaa", { name := "ab" }⟩]⟩ ∧
    specListMatch (some ".") none { name := "ab" } = false := by
  constructor <;> decide

/-- C3 (amended): for `q` and `category` that are, when supplied,
nonempty strings free of regex metacharacters, and a `limit` at least
the collection size, the listing returns exactly the stored items
satisfying the spec predicate — `q` a case-insensitive substring of
`name` or of some alias, ANDed with case-insensitive equality of
`category`. -/
theorem list_foods_filter_semantics (q category : Option String) (dbv : DB) (lim : Nat)
    (hq : literalOpt q) (hc : literalOpt category) (hlim : dbv.docs.length ≤ lim) :
    list_foods (some dbv) q category lim =
      .ok ⟨(dbv.docs.filter (fun d => specListMatch q category d.body)).map
            (fun d => ⟨d.oid, d.body⟩)⟩ := by
  have hfc : dbv.docs.filter (fun d => filterMatches (buildListFilter q category) d.body) =
      dbv.docs.filter (fun d => specListMatch q category d.body) :=
    List.filter_congr (fun d _ => filterMatches_literal q category d.body hq hc)
  simp [list_foods, get_documents, hfc,
    List.take_of_length_le (le_trans (List.length_filter_le _ _) hlim)]

/-- Witness for the amended C3 on a concrete collection: `q = "pot"`
matches "Sweet Potato" by substring, `category = "Vegetable"` matches
case-insensitively. -/
theorem list_foods_filter_semantics_witness :
    literalOpt (some "pot") ∧ literalOpt (some "Vegetable") ∧ dbW.docs.length ≤ 50 ∧
    list_foods (some dbW) (some "pot") (some "Vegetable") 50 =
      .ok ⟨(dbW.docs.filter
              (fun d => specListMatch (some "pot") (some "Vegetable") d.body)).map
            (fun d => ⟨d.oid, d.body⟩)⟩ :=
  ⟨by decide, by decide, by decide,
    list_foods_filter_semantics (some "pot") (some "Vegetable") dbW 50
      (by decide) (by decide) (by decide)⟩

/-! ### Round-trip of storage-assigned identifiers -/

/-- Every hex digit character is a hex digit. -/
theorem hexDigit_isHex : ∀ m < 16, isHexDigitChar (hexDigit m) = true := by decide

/-- Hex digit characters are already lowercase. -/
theorem hexDigit_toLower : ∀ m < 16, (hexDigit m).toLower = hexDigit m := by decide

/-- Storage-assigned identifiers are syntactically valid wire
identifiers. -/
theorem isValidObjectId_toHex24 (n : Nat) : isValidObjectId (toHex24 n) = true := by
  rw [isValidObjectId, toHex24, Bool.and_eq_true]
  constructor
  · simp [String.length_mk]
  · rw [List.all_eq_true]
    intro x hx
    simp only [String.mk] at hx
    obtain ⟨i, hi, rfl⟩ := List.mem_map.mp hx
    exact hexDigit_isHex _ (Nat.mod_lt _ (by norm_num))

/-- Storage-assigned identifiers are fixed by ObjectId
canonicalisation. -/
theorem canonOid_toHex24 (n : Nat) : canonOid (toHex24 n) = toHex24 n := by
  rw [canonOid, toHex24]
  simp only [List.map_map]
  congr 1
  refine List.map_congr_left (fun i hi => ?_)
  exact hexDigit_toLower _ (Nat.mod_lt _ (by norm_num))

/-- C9: creating an item whose payload supplies only `name` passes
validation with every optional field at its default, is persisted with
those defaults, and a subsequent point lookup by the returned
identifier yields the document with empty `aliases`, `micronutrients`,
`benefits`, `conditions_helped`, `cautions`, empty `macros`, and the
optional scalars absent. -/
theorem create_only_name_roundtrip (dbv : DB) (nm : String)
    (hfresh : ∀ d ∈ dbv.docs, d.oid ≠ toHex24 dbv.counter) :
    validate_FoodItemCreate { name := some nm } = .ok { name := nm } ∧
    create_food (some dbv) { name := nm } =
      (.ok ⟨toHex24 dbv.counter, "Food item created"⟩,
        some ⟨dbv.docs ++ [⟨toHex24 dbv.counter, { name := nm }⟩], dbv.counter + 1⟩) ∧
    get_food (some ⟨dbv.docs ++ [⟨toHex24 dbv.counter, { name := nm }⟩], dbv.counter + 1⟩)
        (toHex24 dbv.counter) =
      .ok ⟨toHex24 dbv.counter,
        { name := nm, aliases := [], category := none, serving_size := none,
          calories := none, macros := [], micronutrients := [], glycemic_index := none,
          best_time_to_eat := none, benefits := [], conditions_helped := [],
          cautions := [], notes := none }⟩ := by
  refine ⟨rfl, rfl, ?_⟩
  have hnone : dbv.docs.find? (fun d => d.oid == toHex24 dbv.counter) = none :=
    List.find?_eq_none.mpr (fun d hd => by simp [hfresh d hd])
  simp [get_food, isValidObjectId_toHex24, canonOid_toHex24, List.find?_append, hnone,
    List.find?]

/-- Witness for C9 starting from the empty collection. -/
theorem create_only_name_roundtrip_witness :
    (∀ d ∈ (⟨[], 0⟩ : DB).docs, d.oid ≠ toHex24 (0 : Nat)) ∧
    (validate_FoodItemCreate { name := some "Chia Seeds" } = .ok { name := "Chia Seeds" } ∧
     create_food (some ⟨[], 0⟩) { name := "Chia Seeds" } =
       (.ok ⟨toHex24 0, "Food item created"⟩,
         some ⟨[⟨toHex24 0, { name := "Chia Seeds" }⟩], 1⟩) ∧
     get_food (some ⟨[⟨toHex24 0, { name := "Chia Seeds" }⟩], 1⟩) (toHex24 0) =
       .ok ⟨toHex24 0,
         { name := "Chia Seeds", aliases := [], category := none, serving_size := none,
           calories := none, macros := [], micronutrients := [], glycemic_index := none,
           best_time_to_eat := none, benefits := [], conditions_helped := [],
           cautions := [], notes := none }⟩) :=
  ⟨by decide, create_only_name_roundtrip ⟨[], 0⟩ "Chia Seeds" (by decide)⟩
